import Mathlib

/-!
Verification of the joystick / character-movement logic of the
RN-Game-Joystick repository.

Two components are embedded:

* `Joystick` — the drag-to-vector mapping of
  `src/components/game/Joystick.tsx`: a pan-gesture update clamps the drag
  displacement to the circle of radius `maxDistance = (size - stickSize) / 2`,
  stores the clamped offset in the stick's translation state, and (when an
  `onMove` listener is present) reports the offset divided by `maxDistance`;
  the end handler re-centres the stick and reports `(0, 0)`.

* `GameScreen` — the per-frame integrator of `src/app/index.tsx`: each frame,
  if the joystick input is nonzero, the character position advances by
  `input * moveSpeed` per axis and is clamped per axis to the screen
  rectangle shrunk by half the character size.

JavaScript numbers are modelled as real numbers; `Math.sqrt`, `Math.atan2`,
`Math.cos` and `Math.sin` are modelled by `Real.sqrt`, `Complex.arg`,
`Real.cos` and `Real.sin`.
-/

namespace Joystick

/-- The props of the `Joystick` component (`src/components/game/Joystick.tsx`,
`JoystickProps`): whether an `onMove` callback was supplied, and the base and
stick diameters.  The colour props are presentation-only and omitted. -/
structure Props where
  hasOnMove : Bool
  size : ℝ
  stickSize : ℝ

/-- `const maxDistance = (size - stickSize) / 2` (Joystick.tsx line 47). -/
noncomputable def Props.maxDistance (p : Props) : ℝ :=
  (p.size - p.stickSize) / 2

/-- JavaScript `Math.atan2(y, x)`, modelled as the argument of the complex
number `x + y·i` (both have range `(-π, π]` and send `(0, 0)` to `0`). -/
noncomputable def atan2 (y x : ℝ) : ℝ :=
  Complex.arg ⟨x, y⟩

/-- The stick's translation state (the shared values `translateX`,
`translateY` of Joystick.tsx). -/
structure StickState where
  translateX : ℝ
  translateY : ℝ

/-- A pan-gesture update event (`event.translationX`, `event.translationY`). -/
structure PanEvent where
  translationX : ℝ
  translationY : ℝ

/-- `reportMove` (Joystick.tsx lines 49-56): when an `onMove` callback is
present, the values `x / maxDistance` and `y / maxDistance` are forwarded to
it; otherwise nothing is reported.  The value delivered to the listener is
modelled as the `Option (ℝ × ℝ)` result. -/
noncomputable def reportMove (p : Props) (x y : ℝ) : Option (ℝ × ℝ) :=
  if p.hasOnMove then some (x / p.maxDistance, y / p.maxDistance) else none

/-- The `panGesture.onUpdate` handler (Joystick.tsx lines 58-73).  It ignores
the prior stick state: if the drag distance is within `maxDistance` the raw
translation becomes the new offset, otherwise the displacement is projected
onto the boundary circle of radius `maxDistance` at angle
`atan2(translationY, translationX)`; `reportMove` is then called on the new
offset.  Result: the new stick state and the reported value (if any). -/
noncomputable def onUpdate (p : Props) (event : PanEvent) (_prior : StickState) :
    StickState × Option (ℝ × ℝ) :=
  let distance := Real.sqrt (event.translationX ^ 2 + event.translationY ^ 2)
  let s : StickState :=
    if distance ≤ p.maxDistance then
      { translateX := event.translationX, translateY := event.translationY }
    else
      let angle := atan2 event.translationY event.translationX
      { translateX := Real.cos angle * p.maxDistance,
        translateY := Real.sin angle * p.maxDistance }
  (s, reportMove p s.translateX s.translateY)

/-- The `panGesture.onEnd` handler (Joystick.tsx lines 74-78).  It ignores the
prior stick state, springs the stick back to the centre (the spring easing is
presentation; its target `(0, 0)` is the modelled new state) and, in the same
handler invocation, calls `reportMove 0 0`. -/
noncomputable def onEnd (p : Props) (_prior : StickState) :
    StickState × Option (ℝ × ℝ) :=
  ({ translateX := 0, translateY := 0 }, reportMove p 0 0)

/-- Construction of the `Joystick` component (Joystick.tsx lines 37-47),
embedded as a fallible operation to expose its failure behaviour: the
component body only computes `maxDistance` and creates the shared values — it
contains no validation of `size` or `stickSize` and no failure path, so
construction always succeeds. -/
def construct (hasOnMove : Bool) (size stickSize : ℝ) : Except String Props :=
  Except.ok { hasOnMove := hasOnMove, size := size, stickSize := stickSize }

end Joystick

namespace GameScreen

/-- The character position (shared values `characterX`, `characterY` of
`src/app/index.tsx`). -/
structure Position where
  x : ℝ
  y : ℝ

/-- The joystick input (shared values `joystickX`, `joystickY` of
`src/app/index.tsx`, written by `handleJoystickMove`). -/
structure InputVector where
  x : ℝ
  y : ℝ

/-- `const moveSpeed = 5` (index.tsx line 20). -/
def moveSpeed : ℝ := 5

/-- The initial character position `(width / 2, height / 2)`
(index.tsx lines 12-13). -/
noncomputable def initPosition (width height : ℝ) : Position :=
  { x := width / 2, y := height / 2 }

/-- The `useFrameCallback` body (index.tsx lines 23-38): if the joystick
input is nonzero on either axis, add `input * moveSpeed` per axis and clamp
each axis independently to `[characterSize / 2, extent - characterSize / 2]`
with `characterSize = 50`; if the input is the zero vector, the position is
returned untouched (explicit short-circuit). -/
noncomputable def tick (width height speed : ℝ) (joystick : InputVector)
    (pos : Position) : Position :=
  if joystick.x ≠ 0 ∨ joystick.y ≠ 0 then
    let newX := pos.x + joystick.x * speed
    let newY := pos.y + joystick.y * speed
    let characterSize : ℝ := 50
    let minX := characterSize / 2
    let maxX := width - characterSize / 2
    let minY := characterSize / 2
    let maxY := height - characterSize / 2
    { x := max minX (min maxX newX), y := max minY (min maxY newY) }
  else
    pos

/-- A sequence of frame-callback invocations, each with the joystick input
current at that frame. -/
noncomputable def ticks (width height speed : ℝ) (inputs : List InputVector)
    (pos : Position) : Position :=
  inputs.foldl (fun p i => tick width height speed i p) pos

/-- The clamping rectangle of the frame callback: each axis of the character
position within `[25, extent - 25]` (screen bounds shrunk by half the
character size `50 / 2 = 25`). -/
def inBounds (width height : ℝ) (p : Position) : Prop :=
  25 ≤ p.x ∧ p.x ≤ width - 25 ∧ 25 ≤ p.y ∧ p.y ≤ height - 25

end GameScreen

namespace GameScreen

/-- One nonzero-input tick is exactly a per-axis add-and-clamp (helper). -/
theorem tick_eq_clamp (width height speed : ℝ) (i : InputVector) (p : Position)
    (hnz : i.x ≠ 0 ∨ i.y ≠ 0) :
    tick width height speed i p =
      { x := max 25 (min (width - 25) (p.x + i.x * speed)),
        y := max 25 (min (height - 25) (p.y + i.y * speed)) } := by
  unfold tick
  rw [if_pos hnz]
  norm_num

/-- A zero-input tick returns the position untouched (helper). -/
theorem tick_zero (width height speed : ℝ) (p : Position) :
    tick width height speed ⟨0, 0⟩ p = p := by
  unfold tick
  simp

/-- C5: a nonzero-input tick sets each axis to
`clamp (position + input * speed)`, computed independently per axis with no
diagonal normalization. -/
theorem tick_nonzero_clamps_per_axis (width height speed : ℝ)
    (i : InputVector) (p : Position) (hnz : i.x ≠ 0 ∨ i.y ≠ 0) :
    tick width height speed i p =
      { x := max 25 (min (width - 25) (p.x + i.x * speed)),
        y := max 25 (min (height - 25) (p.y + i.y * speed)) } :=
  tick_eq_clamp width height speed i p hnz

/-- Witness for C5: with input `(1, 1)` and speed `5` the per-axis delta is
`5` each (a tick from `(500, 500)` on a `1000 × 1000` screen lands at
`(505, 505)`, not `500 + 5 / √2`), and from `(973, 500)` with input `(1, 0)`,
speed `5` and x-bounds `[25, 975]` the tick clamps to `(975, 500)`. -/
theorem tick_nonzero_clamps_per_axis_witness :
    (((1 : ℝ) ≠ 0 ∨ (1 : ℝ) ≠ 0) ∧
      tick 1000 1000 5 ⟨1, 1⟩ ⟨500, 500⟩ = ⟨505, 505⟩) ∧
    (((1 : ℝ) ≠ 0 ∨ (0 : ℝ) ≠ 0) ∧
      tick 1000 1000 5 ⟨1, 0⟩ ⟨973, 500⟩ = ⟨975, 500⟩) := by
  constructor
  · refine ⟨Or.inl one_ne_zero, ?_⟩
    rw [tick_nonzero_clamps_per_axis 1000 1000 5 ⟨1, 1⟩ ⟨500, 500⟩
      (Or.inl one_ne_zero)]
    simp only [Position.mk.injEq]
    constructor <;> norm_num [max_def, min_def]
  · refine ⟨Or.inl one_ne_zero, ?_⟩
    rw [tick_nonzero_clamps_per_axis 1000 1000 5 ⟨1, 0⟩ ⟨973, 500⟩
      (Or.inl one_ne_zero)]
    simp only [Position.mk.injEq]
    constructor <;> norm_num [max_def, min_def]

/-- C6: a tick with the zero input vector leaves the position exactly
unchanged — the frame callback short-circuits before any arithmetic, so this
holds for every position (even one outside the bounds, which an
add-then-clamp of zero would move) — and hence any number of repeated
zero-input ticks never changes the position. -/
theorem tick_zero_input_unchanged (width height speed : ℝ) (p : Position)
    (n : ℕ) :
    tick width height speed ⟨0, 0⟩ p = p ∧
    ticks width height speed (List.replicate n ⟨0, 0⟩) p = p := by
  refine ⟨tick_zero width height speed p, ?_⟩
  induction n with
  | zero => rfl
  | succ k ih =>
      rw [List.replicate_succ]
      unfold ticks at ih ⊢
      rw [List.foldl_cons, tick_zero]
      exact ih

/-- One tick preserves the clamping rectangle whenever the screen is at least
as large as the character (helper). -/
theorem tick_preserves_inBounds (width height speed : ℝ) (i : InputVector)
    (p : Position) (hw : 50 ≤ width) (hh : 50 ≤ height)
    (hp : inBounds width height p) :
    inBounds width height (tick width height speed i p) := by
  by_cases hnz : i.x ≠ 0 ∨ i.y ≠ 0
  · rw [tick_eq_clamp width height speed i p hnz]
    refine ⟨le_max_left _ _, ?_, le_max_left _ _, ?_⟩
    · exact max_le (by linarith) (min_le_left _ _)
    · exact max_le (by linarith) (min_le_left _ _)
  · push_neg at hnz
    have hi : i = ⟨0, 0⟩ := by
      cases i
      simp only [InputVector.mk.injEq]
      exact hnz
    rw [hi, tick_zero]
    exact hp

/-- The clamping rectangle is preserved along any sequence of ticks
(helper). -/
theorem ticks_preserve_inBounds (width height speed : ℝ)
    (inputs : List InputVector) (p : Position) (hw : 50 ≤ width)
    (hh : 50 ≤ height) (hp : inBounds width height p) :
    inBounds width height (ticks width height speed inputs p) := by
  induction inputs generalizing p with
  | nil => exact hp
  | cons i rest ih =>
      unfold ticks
      rw [List.foldl_cons]
      exact ih (tick width height speed i p)
        (tick_preserves_inBounds width height speed i p hw hh hp)

/-- C4: starting from the program's initial position `(width/2, height/2)`,
for every sequence of frame-callback invocations, every speed > 0 and inputs
with components in `[-1, 1]`, the character position stays within
`[25, width - 25] × [25, height - 25]` (screen bounds shrunk by half the
character extent) after every update — every prefix of a sequence being
itself a sequence, this covers each intermediate state.  The screen must
accommodate the 50-unit character (`50 ≤ width`, `50 ≤ height`), the
configuration the code assumes. -/
theorem tick_sequence_stays_in_bounds (width height speed : ℝ)
    (inputs : List InputVector) (hw : 50 ≤ width) (hh : 50 ≤ height)
    (hspeed : 0 < speed)
    (hinputs : ∀ i ∈ inputs, -1 ≤ i.x ∧ i.x ≤ 1 ∧ -1 ≤ i.y ∧ i.y ≤ 1) :
    inBounds width height
      (ticks width height speed inputs (initPosition width height)) := by
  apply ticks_preserve_inBounds width height speed inputs _ hw hh
  unfold initPosition inBounds
  refine ⟨by linarith, by linarith, by linarith, by linarith⟩

/-- Witness for C4: on a `1000 × 1000` screen with speed `5`, the input
sequence `[(1, 0), (1, 1), (0, 0), (-1, -1)]` keeps the character inside
`[25, 975] × [25, 975]`. -/
theorem tick_sequence_stays_in_bounds_witness :
    (50 : ℝ) ≤ 1000 ∧ (0 : ℝ) < 5 ∧
    (∀ i ∈ ([⟨1, 0⟩, ⟨1, 1⟩, ⟨0, 0⟩, ⟨-1, -1⟩] : List InputVector),
      -1 ≤ i.x ∧ i.x ≤ 1 ∧ -1 ≤ i.y ∧ i.y ≤ 1) ∧
    inBounds 1000 1000
      (ticks 1000 1000 5 [⟨1, 0⟩, ⟨1, 1⟩, ⟨0, 0⟩, ⟨-1, -1⟩]
        (initPosition 1000 1000)) := by
  have hin : ∀ i ∈ ([⟨1, 0⟩, ⟨1, 1⟩, ⟨0, 0⟩, ⟨-1, -1⟩] : List InputVector),
      -1 ≤ i.x ∧ i.x ≤ 1 ∧ -1 ≤ i.y ∧ i.y ≤ 1 := by
    intro i hi
    simp only [List.mem_cons, List.not_mem_nil, or_false] at hi
    rcases hi with h | h | h | h <;> subst h <;> norm_num
  exact ⟨by norm_num, by norm_num, hin,
    tick_sequence_stays_in_bounds 1000 1000 5 _ (by norm_num) (by norm_num)
      (by norm_num) hin⟩

/-- C10: a nonzero-input tick is total and deterministic even for degenerate
bounds: when `width - 25 < 25` (screen narrower than the character) the new
`x` is exactly the lower bound `25` — the outer `max` in
`max 25 (min (width - 25) newX)` wins — and symmetrically for `y`; and
whenever the bounds are proper, one nonzero-input tick lands inside
`[25, extent - 25]` on that axis regardless of the prior position, even one
outside the bounds. -/
theorem tick_degenerate_bounds_min_wins (width height speed : ℝ)
    (i : InputVector) (p : Position) (hnz : i.x ≠ 0 ∨ i.y ≠ 0) :
    (width - 25 < 25 → (tick width height speed i p).x = 25) ∧
    (height - 25 < 25 → (tick width height speed i p).y = 25) ∧
    (25 ≤ width - 25 →
      25 ≤ (tick width height speed i p).x ∧
      (tick width height speed i p).x ≤ width - 25) ∧
    (25 ≤ height - 25 →
      25 ≤ (tick width height speed i p).y ∧
      (tick width height speed i p).y ≤ height - 25) := by
  rw [tick_eq_clamp width height speed i p hnz]
  refine ⟨?_, ?_, ?_, ?_⟩
  · intro hdeg
    exact max_eq_left (le_of_lt (lt_of_le_of_lt (min_le_left _ _) hdeg))
  · intro hdeg
    exact max_eq_left (le_of_lt (lt_of_le_of_lt (min_le_left _ _) hdeg))
  · intro hok
    exact ⟨le_max_left _ _, max_le hok (min_le_left _ _)⟩
  · intro hok
    exact ⟨le_max_left _ _, max_le hok (min_le_left _ _)⟩

/-- Witness for C10: on a degenerate `40`-wide, proper `1000`-tall screen,
a tick with input `(1, 0)` from `(100, 500)` (x outside the degenerate
bounds) sets `x` to the min bound `25`, and lands `y` inside `[25, 975]`. -/
theorem tick_degenerate_bounds_min_wins_witness :
    ((1 : ℝ) ≠ 0 ∨ (0 : ℝ) ≠ 0) ∧
    (((40 : ℝ) - 25 < 25 → (tick 40 1000 5 ⟨1, 0⟩ ⟨100, 500⟩).x = 25) ∧
      ((1000 : ℝ) - 25 < 25 → (tick 40 1000 5 ⟨1, 0⟩ ⟨100, 500⟩).y = 25) ∧
      ((25 : ℝ) ≤ 40 - 25 →
        25 ≤ (tick 40 1000 5 ⟨1, 0⟩ ⟨100, 500⟩).x ∧
        (tick 40 1000 5 ⟨1, 0⟩ ⟨100, 500⟩).x ≤ 40 - 25) ∧
      ((25 : ℝ) ≤ 1000 - 25 →
        25 ≤ (tick 40 1000 5 ⟨1, 0⟩ ⟨100, 500⟩).y ∧
        (tick 40 1000 5 ⟨1, 0⟩ ⟨100, 500⟩).y ≤ 1000 - 25)) :=
  ⟨Or.inl one_ne_zero,
    tick_degenerate_bounds_min_wins 40 1000 5 ⟨1, 0⟩ ⟨100, 500⟩
      (Or.inl one_ne_zero)⟩

end GameScreen

namespace Joystick

/-- In-radius case of the update handler: when the drag distance is within
`maxDistance`, the offset is the raw translation and it is what gets
reported (helper). -/
theorem onUpdate_of_le (p : Props) (e : PanEvent) (s₀ : StickState)
    (hdist : Real.sqrt (e.translationX ^ 2 + e.translationY ^ 2) ≤
      p.maxDistance) :
    onUpdate p e s₀ =
      ({ translateX := e.translationX, translateY := e.translationY },
        reportMove p e.translationX e.translationY) := by
  unfold onUpdate
  simp only [if_pos hdist]

/-- Beyond-radius case of the update handler: the offset is the boundary
circle point at angle `atan2(dy, dx)` and it is what gets reported
(helper). -/
theorem onUpdate_of_gt (p : Props) (e : PanEvent) (s₀ : StickState)
    (hdist : p.maxDistance <
      Real.sqrt (e.translationX ^ 2 + e.translationY ^ 2)) :
    onUpdate p e s₀ =
      ({ translateX :=
            Real.cos (atan2 e.translationY e.translationX) * p.maxDistance,
          translateY :=
            Real.sin (atan2 e.translationY e.translationX) * p.maxDistance },
        reportMove p
          (Real.cos (atan2 e.translationY e.translationX) * p.maxDistance)
          (Real.sin (atan2 e.translationY e.translationX) * p.maxDistance)) := by
  unfold onUpdate
  simp only [if_neg (not_le.mpr hdist)]

/-- With an `onMove` listener present, `reportMove` delivers the offset
divided by `maxDistance` (helper). -/
theorem reportMove_some (p : Props) (x y : ℝ) (hmove : p.hasOnMove = true) :
    reportMove p x y = some (x / p.maxDistance, y / p.maxDistance) := by
  unfold reportMove
  rw [hmove]
  simp

/-- C1: for every drag displacement with `√(dx² + dy²) ≤ maxDistance` and
`maxDistance > 0`, the update handler reports exactly
`(dx / maxDistance, dy / maxDistance)` to the listener. -/
theorem onUpdate_within_reports_normalized (p : Props) (e : PanEvent)
    (s₀ : StickState) (hmove : p.hasOnMove = true)
    (hmax : 0 < p.maxDistance)
    (hdist : Real.sqrt (e.translationX ^ 2 + e.translationY ^ 2) ≤
      p.maxDistance) :
    (onUpdate p e s₀).2 =
      some (e.translationX / p.maxDistance,
        e.translationY / p.maxDistance) := by
  rw [onUpdate_of_le p e s₀ hdist]
  exact reportMove_some p e.translationX e.translationY hmove

/-- `maxDistance = 45` for the demo configuration `size = 150`,
`stickSize = 60` (helper). -/
theorem maxDistance_demo : Props.maxDistance ⟨true, 150, 60⟩ = 45 := by
  unfold Props.maxDistance
  norm_num

/-- `√(30² + 0²) = 30` (helper). -/
theorem sqrt_demo_within : Real.sqrt ((30 : ℝ) ^ 2 + (0 : ℝ) ^ 2) = 30 := by
  rw [show (30 : ℝ) ^ 2 + (0 : ℝ) ^ 2 = 30 ^ 2 by norm_num,
    Real.sqrt_sq (by norm_num : (0 : ℝ) ≤ 30)]

/-- `√(100² + 0²) = 100` (helper). -/
theorem sqrt_demo_beyond : Real.sqrt ((100 : ℝ) ^ 2 + (0 : ℝ) ^ 2) = 100 := by
  rw [show (100 : ℝ) ^ 2 + (0 : ℝ) ^ 2 = 100 ^ 2 by norm_num,
    Real.sqrt_sq (by norm_num : (0 : ℝ) ≤ 100)]

/-- `Math.atan2(0, 100) = 0` (helper). -/
theorem atan2_demo : atan2 0 100 = 0 := by
  unfold atan2
  rw [Complex.arg_eq_zero_iff]
  exact ⟨by norm_num, rfl⟩

/-- Witness for C1: with `size = 150`, `stickSize = 60` (so
`maxDistance = 45`) a drag of `(30, 0)` is within the radius and reports
`(30 / 45, 0)`. -/
theorem onUpdate_within_reports_normalized_witness :
    Props.hasOnMove ⟨true, 150, 60⟩ = true ∧
    (0 : ℝ) < Props.maxDistance ⟨true, 150, 60⟩ ∧
    Real.sqrt ((30 : ℝ) ^ 2 + (0 : ℝ) ^ 2) ≤
      Props.maxDistance ⟨true, 150, 60⟩ ∧
    (onUpdate ⟨true, 150, 60⟩ ⟨30, 0⟩ ⟨0, 0⟩).2 = some (30 / 45, 0) := by
  have hmax : (0 : ℝ) < Props.maxDistance ⟨true, 150, 60⟩ := by
    rw [maxDistance_demo]; norm_num
  have hdist : Real.sqrt ((30 : ℝ) ^ 2 + (0 : ℝ) ^ 2) ≤
      Props.maxDistance ⟨true, 150, 60⟩ := by
    rw [maxDistance_demo, sqrt_demo_within]; norm_num
  have h := onUpdate_within_reports_normalized ⟨true, 150, 60⟩ ⟨30, 0⟩ ⟨0, 0⟩
    rfl hmax hdist
  refine ⟨rfl, hmax, hdist, ?_⟩
  rw [h]
  show some ((30 : ℝ) / Props.maxDistance ⟨true, 150, 60⟩,
    (0 : ℝ) / Props.maxDistance ⟨true, 150, 60⟩) = some (30 / 45, 0)
  rw [maxDistance_demo]
  norm_num

/-- C2: for every drag displacement with
`√(dx² + dy²) > maxDistance > 0`, the update handler reports
`(cos (atan2 dy dx), sin (atan2 dy dx))` — a vector of magnitude 1 in the
direction `atan2(dy, dx)`. -/
theorem onUpdate_beyond_reports_unit_direction (p : Props) (e : PanEvent)
    (s₀ : StickState) (hmove : p.hasOnMove = true)
    (hmax : 0 < p.maxDistance)
    (hdist : p.maxDistance <
      Real.sqrt (e.translationX ^ 2 + e.translationY ^ 2)) :
    (onUpdate p e s₀).2 =
      some (Real.cos (atan2 e.translationY e.translationX),
        Real.sin (atan2 e.translationY e.translationX)) ∧
    Real.sqrt (Real.cos (atan2 e.translationY e.translationX) ^ 2 +
      Real.sin (atan2 e.translationY e.translationX) ^ 2) = 1 := by
  constructor
  · rw [onUpdate_of_gt p e s₀ hdist]
    show reportMove p _ _ = _
    rw [reportMove_some p _ _ hmove,
      mul_div_cancel_right₀ _ (ne_of_gt hmax),
      mul_div_cancel_right₀ _ (ne_of_gt hmax)]
  · rw [Real.cos_sq_add_sin_sq, Real.sqrt_one]

/-- Witness for C2: with `maxDistance = 45` a drag of `(100, 0)` is beyond
the radius and reports `(1, 0)` (since `atan2(0, 100) = 0`). -/
theorem onUpdate_beyond_reports_unit_direction_witness :
    Props.hasOnMove ⟨true, 150, 60⟩ = true ∧
    (0 : ℝ) < Props.maxDistance ⟨true, 150, 60⟩ ∧
    Props.maxDistance ⟨true, 150, 60⟩ <
      Real.sqrt ((100 : ℝ) ^ 2 + (0 : ℝ) ^ 2) ∧
    (onUpdate ⟨true, 150, 60⟩ ⟨100, 0⟩ ⟨0, 0⟩).2 = some (1, 0) := by
  have hmax : (0 : ℝ) < Props.maxDistance ⟨true, 150, 60⟩ := by
    rw [maxDistance_demo]; norm_num
  have hdist : Props.maxDistance ⟨true, 150, 60⟩ <
      Real.sqrt ((100 : ℝ) ^ 2 + (0 : ℝ) ^ 2) := by
    rw [maxDistance_demo, sqrt_demo_beyond]; norm_num
  have h := onUpdate_beyond_reports_unit_direction ⟨true, 150, 60⟩ ⟨100, 0⟩
    ⟨0, 0⟩ rfl hmax hdist
  refine ⟨rfl, hmax, hdist, ?_⟩
  rw [h.1]
  show some (Real.cos (atan2 0 100), Real.sin (atan2 0 100)) =
    some ((1 : ℝ), (0 : ℝ))
  rw [atan2_demo, Real.cos_zero, Real.sin_zero]

/-- A point of the closed unit disc has both coordinates in `[-1, 1]`
(helper). -/
theorem abs_components_le_of_sqrt_le {x y : ℝ}
    (h : Real.sqrt (x ^ 2 + y ^ 2) ≤ 1) : |x| ≤ 1 ∧ |y| ≤ 1 := by
  constructor
  · calc |x| = Real.sqrt (x ^ 2) := (Real.sqrt_sq_eq_abs x).symm
      _ ≤ Real.sqrt (x ^ 2 + y ^ 2) :=
          Real.sqrt_le_sqrt (le_add_of_nonneg_right (sq_nonneg y))
      _ ≤ 1 := h
  · calc |y| = Real.sqrt (y ^ 2) := (Real.sqrt_sq_eq_abs y).symm
      _ ≤ Real.sqrt (x ^ 2 + y ^ 2) :=
          Real.sqrt_le_sqrt (le_add_of_nonneg_left (sq_nonneg x))
      _ ≤ 1 := h

/-- The reported component of an in-radius update is `reportMove` on the raw
translation (helper). -/
theorem onUpdate_snd_of_le (p : Props) (e : PanEvent) (s₀ : StickState)
    (hdist : Real.sqrt (e.translationX ^ 2 + e.translationY ^ 2) ≤
      p.maxDistance) :
    (onUpdate p e s₀).2 = reportMove p e.translationX e.translationY := by
  rw [onUpdate_of_le p e s₀ hdist]

/-- The reported component of a beyond-radius update is `reportMove` on the
boundary-circle point (helper). -/
theorem onUpdate_snd_of_gt (p : Props) (e : PanEvent) (s₀ : StickState)
    (hdist : p.maxDistance <
      Real.sqrt (e.translationX ^ 2 + e.translationY ^ 2)) :
    (onUpdate p e s₀).2 =
      reportMove p
        (Real.cos (atan2 e.translationY e.translationX) * p.maxDistance)
        (Real.sin (atan2 e.translationY e.translationX) * p.maxDistance) := by
  rw [onUpdate_of_gt p e s₀ hdist]

/-- C3: whenever `maxDistance > 0`, every vector `(x, y)` that a drag update
delivers to the `onMove` listener satisfies `√(x² + y²) ≤ 1`, and hence each
component lies in `[-1, 1]`: the circle projection is the only clamping, and
no per-axis clamping is applied on top of it. -/
theorem report_magnitude_le_one (p : Props) (e : PanEvent) (s₀ : StickState)
    (x y : ℝ) (hmax : 0 < p.maxDistance)
    (hrep : (onUpdate p e s₀).2 = some (x, y)) :
    Real.sqrt (x ^ 2 + y ^ 2) ≤ 1 ∧ |x| ≤ 1 ∧ |y| ≤ 1 := by
  have key : Real.sqrt (x ^ 2 + y ^ 2) ≤ 1 := by
    by_cases hmove : p.hasOnMove = true
    · by_cases hdist : Real.sqrt (e.translationX ^ 2 + e.translationY ^ 2) ≤
          p.maxDistance
      · rw [onUpdate_snd_of_le p e s₀ hdist,
          reportMove_some p e.translationX e.translationY hmove] at hrep
        simp only [Option.some.injEq, Prod.mk.injEq] at hrep
        obtain ⟨hx, hy⟩ := hrep
        subst hx
        subst hy
        rw [show (e.translationX / p.maxDistance) ^ 2 +
            (e.translationY / p.maxDistance) ^ 2 =
            (e.translationX ^ 2 + e.translationY ^ 2) / p.maxDistance ^ 2 by
          ring]
        rw [Real.sqrt_div (by positivity) _, Real.sqrt_sq hmax.le,
          div_le_one hmax]
        exact hdist
      · rw [onUpdate_snd_of_gt p e s₀ (not_le.mp hdist),
          reportMove_some p _ _ hmove,
          mul_div_cancel_right₀ _ (ne_of_gt hmax),
          mul_div_cancel_right₀ _ (ne_of_gt hmax)] at hrep
        simp only [Option.some.injEq, Prod.mk.injEq] at hrep
        obtain ⟨hx, hy⟩ := hrep
        subst hx
        subst hy
        rw [Real.cos_sq_add_sin_sq, Real.sqrt_one]
    · have hfalse : p.hasOnMove = false := by
        cases hb : p.hasOnMove
        · rfl
        · exact absurd hb hmove
      unfold onUpdate reportMove at hrep
      rw [hfalse] at hrep
      simp at hrep
  exact ⟨key, abs_components_le_of_sqrt_le key⟩

/-- The demo drag `(30, 0)` reports exactly `(30 / 45, 0)` — a direct
computation shared by witnesses (helper). -/
theorem onUpdate_demo_eq :
    (onUpdate ⟨true, 150, 60⟩ ⟨30, 0⟩ ⟨0, 0⟩).2 = some (30 / 45, 0) := by
  have hdist : Real.sqrt (((⟨30, 0⟩ : PanEvent)).translationX ^ 2 +
      ((⟨30, 0⟩ : PanEvent)).translationY ^ 2) ≤
      (⟨true, 150, 60⟩ : Props).maxDistance := by
    show Real.sqrt ((30 : ℝ) ^ 2 + (0 : ℝ) ^ 2) ≤
      Props.maxDistance ⟨true, 150, 60⟩
    rw [maxDistance_demo, sqrt_demo_within]; norm_num
  rw [onUpdate_of_le ⟨true, 150, 60⟩ ⟨30, 0⟩ ⟨0, 0⟩ hdist]
  show reportMove ⟨true, 150, 60⟩ 30 0 = some (30 / 45, 0)
  rw [reportMove_some ⟨true, 150, 60⟩ 30 0 rfl, maxDistance_demo]
  norm_num

/-- Witness for C3: the reported vector of the demo drag `(30, 0)` with
`maxDistance = 45` is `(30 / 45, 0)`, of magnitude at most 1 and with both
components in `[-1, 1]`. -/
theorem report_magnitude_le_one_witness :
    (0 : ℝ) < Props.maxDistance ⟨true, 150, 60⟩ ∧
    (onUpdate ⟨true, 150, 60⟩ ⟨30, 0⟩ ⟨0, 0⟩).2 = some (30 / 45, 0) ∧
    (Real.sqrt (((30 : ℝ) / 45) ^ 2 + (0 : ℝ) ^ 2) ≤ 1 ∧
      |(30 : ℝ) / 45| ≤ 1 ∧ |(0 : ℝ)| ≤ 1) := by
  have hmax : (0 : ℝ) < Props.maxDistance ⟨true, 150, 60⟩ := by
    rw [maxDistance_demo]; norm_num
  exact ⟨hmax, onUpdate_demo_eq,
    report_magnitude_le_one ⟨true, 150, 60⟩ ⟨30, 0⟩ ⟨0, 0⟩ (30 / 45) 0 hmax
      onUpdate_demo_eq⟩

/-- C7: the drag-end handler reports exactly `(0, 0)` to the listener
regardless of the prior drag state, and it does so in the handler invocation
itself — the report is a component of the handler's own synchronous result,
produced alongside setting the spring target, not deferred until the spring
animation back to centre finishes. -/
theorem onEnd_reports_zero (p : Props) (s₀ : StickState)
    (hmove : p.hasOnMove = true) :
    (onEnd p s₀).2 = some (0, 0) ∧
    (onEnd p s₀).1 = { translateX := 0, translateY := 0 } := by
  refine ⟨?_, rfl⟩
  show reportMove p 0 0 = some (0, 0)
  rw [reportMove_some p 0 0 hmove, zero_div]

/-- Witness for C7: from the prior drag state `(12, -7)` the end handler
reports `(0, 0)` and re-centres the stick. -/
theorem onEnd_reports_zero_witness :
    Props.hasOnMove ⟨true, 150, 60⟩ = true ∧
    (onEnd ⟨true, 150, 60⟩ ⟨12, -7⟩).2 = some (0, 0) ∧
    (onEnd ⟨true, 150, 60⟩ ⟨12, -7⟩).1 =
      { translateX := 0, translateY := 0 } :=
  ⟨rfl, onEnd_reports_zero ⟨true, 150, 60⟩ ⟨12, -7⟩ rfl⟩

/-- Counterexample to C8: the misconfigured construction `size = 60`,
`stickSize = 60` (so `maxDistance = 0`) does not fail — it succeeds and
yields the component unchanged, deferring the division by `maxDistance = 0`
to drag-update time. -/
theorem construct_accepts_degenerate_config :
    construct true 60 60 = Except.ok ⟨true, 60, 60⟩ ∧
    Props.maxDistance ⟨true, 60, 60⟩ = 0 := by
  refine ⟨rfl, ?_⟩
  unfold Props.maxDistance
  norm_num

/-- C8 (amended): construction performs no validation at all — for every
`size` and `stickSize`, including `stickSize ≥ size` (`maxDistance ≤ 0`),
it succeeds and returns the component as configured; misconfiguration is
never rejected eagerly and only surfaces when a drag update divides by
`maxDistance`. -/
theorem construct_never_fails (hasMove : Bool) (size stickSize : ℝ) :
    construct hasMove size stickSize =
      Except.ok { hasOnMove := hasMove, size := size, stickSize := stickSize } :=
  rfl

/-- C9: without an `onMove` callback, drag updates and drag end deliver
nothing to any listener, yet the stick offsets are updated by exactly the
same clamping rules: the offset computed by either handler is independent of
whether `onMove` was provided. -/
theorem no_onMove_still_updates_offset (size stickSize : ℝ) (e : PanEvent)
    (s₀ : StickState) (b : Bool) :
    (onUpdate ⟨false, size, stickSize⟩ e s₀).2 = none ∧
    (onEnd ⟨false, size, stickSize⟩ s₀).2 = none ∧
    (onUpdate ⟨b, size, stickSize⟩ e s₀).1 =
      (onUpdate ⟨false, size, stickSize⟩ e s₀).1 ∧
    (onEnd ⟨b, size, stickSize⟩ s₀).1 =
      (onEnd ⟨false, size, stickSize⟩ s₀).1 :=
  ⟨rfl, rfl, rfl, rfl⟩

end Joystick
